import Mathlib

/-!
Verification of the client-side interactivity script of the Balma venue
website (`script.js`).  The JavaScript is shallowly embedded: module-level
mutable variables become explicit state that is threaded through the
translated functions, DOM reads become parameters, DOM writes become
returned values, and a thrown exception becomes an `Except.error`.
-/

/-! ## JavaScript number and string primitives

The only numbers the navigation code manipulates are integers, except that
`x % 0` produces `NaN`; we model such a number as `Option Int`, with `none`
for `NaN`. -/

/-- A JavaScript number as it occurs in the index arithmetic of the script:
an integer, or `NaN` (`none`), which arises from `x % 0`. -/
abbrev JsInt := Option Int

/-- JavaScript `+` on integer-or-NaN values. -/
def jsAdd : JsInt → JsInt → JsInt
  | some a, some b => some (a + b)
  | _, _ => none

/-- JavaScript `-` on integer-or-NaN values. -/
def jsSub : JsInt → JsInt → JsInt
  | some a, some b => some (a - b)
  | _, _ => none

/-- JavaScript `%` on integer-or-NaN values: the remainder takes the sign of
the dividend (`Int.tmod`), and a zero divisor yields `NaN`. -/
def jsRem : JsInt → JsInt → JsInt
  | some a, some b => if b = 0 then none else some (Int.tmod a b)
  | _, _ => none

/-- The characters matched by `\s` in a JavaScript regular expression and
trimmed by `String.prototype.trim`, restricted to the ASCII whitespace that
can occur in this page's inputs. -/
def isJsWs (c : Char) : Bool :=
  c == ' ' || c == '\t' || c == '\n' || c == '\r' || c == '\x0b' || c == '\x0c'

/-- `String.prototype.trim`: strip leading and trailing whitespace. -/
def jsTrimL (l : List Char) : List Char :=
  ((l.dropWhile isJsWs).reverse.dropWhile isJsWs).reverse

/-! ## Gallery lightbox (`script.js` §5)

`currentImageIndex` is the module-level index; `galleryImages` is the list
built once from the DOM.  `updateLightboxImage` reads
`galleryImages[currentImageIndex]` and then the entry's `.src`; when the
index is `NaN` or out of range the entry is `undefined` and the property
read throws a `TypeError`. -/

structure GalleryImage where
  src : String
  alt : String
deriving DecidableEq

/-- JavaScript array indexing `l[i]`: `undefined` (`none`) for a `NaN`,
negative, or too-large index. -/
def jsArrayGet {α : Type} (l : List α) : JsInt → Option α
  | some i => if h : 0 ≤ i ∧ i.toNat < l.length then some (l.get ⟨i.toNat, h.2⟩) else none
  | none => none

/-- The DOM writes performed by `updateLightboxImage`. -/
structure LightboxView where
  src : String
  alt : String
  counter : String
deriving DecidableEq

/-- A thrown JavaScript exception. -/
inductive JsError where
  | typeError
deriving DecidableEq

/-- `updateLightboxImage`: reads `galleryImages[currentImageIndex]` and its
`.src` / `.alt`, and writes the `k / n` counter text; reading a property of
`undefined` throws. -/
def updateLightboxImage (galleryImages : List GalleryImage) (currentImageIndex : JsInt) :
    Except JsError LightboxView :=
  match currentImageIndex, jsArrayGet galleryImages currentImageIndex with
  | some i, some image =>
      .ok { src := image.src, alt := image.alt,
            counter := toString (i + 1) ++ " / " ++ toString galleryImages.length }
  | _, _ => .error .typeError

/-- `showNextImage`: `currentImageIndex = (currentImageIndex + 1) % galleryImages.length`,
then `updateLightboxImage()`.  Returns the new index together with the
outcome of the update (the index is mutated even when the update throws). -/
def showNextImage (galleryImages : List GalleryImage) (currentImageIndex : JsInt) :
    JsInt × Except JsError LightboxView :=
  let i := jsRem (jsAdd currentImageIndex (some 1)) (some (galleryImages.length : Int))
  (i, updateLightboxImage galleryImages i)

/-- `showPrevImage`: `currentImageIndex = (currentImageIndex - 1 + galleryImages.length) % galleryImages.length`,
then `updateLightboxImage()`. -/
def showPrevImage (galleryImages : List GalleryImage) (currentImageIndex : JsInt) :
    JsInt × Except JsError LightboxView :=
  let i := jsRem (jsAdd (jsSub currentImageIndex (some 1)) (some (galleryImages.length : Int)))
            (some (galleryImages.length : Int))
  (i, updateLightboxImage galleryImages i)

/-! ## Storia slider (`script.js` §6)

`currentSlideIndex` is the module-level index and `storiaSliderImages.length`
the collection length.  `updateSlider` only toggles classes by comparing
each position against the index, so it never throws. -/

/-- `updateSlider`: slide `k` carries the `active` class iff
`k === currentSlideIndex`; a `NaN` index matches no position. -/
def updateSlider (numSlides : Nat) (currentSlideIndex : JsInt) : List Bool :=
  (List.range numSlides).map (fun k : Nat => currentSlideIndex == some (k : Int))

/-- `showNextSlide`: `currentSlideIndex = (currentSlideIndex + 1) % storiaSliderImages.length`. -/
def showNextSlide (numSlides : Nat) (currentSlideIndex : JsInt) : JsInt :=
  jsRem (jsAdd currentSlideIndex (some 1)) (some (numSlides : Int))

/-- `showPrevSlide`: `currentSlideIndex = (currentSlideIndex - 1 + storiaSliderImages.length) % storiaSliderImages.length`. -/
def showPrevSlide (numSlides : Nat) (currentSlideIndex : JsInt) : JsInt :=
  jsRem (jsAdd (jsSub currentSlideIndex (some 1)) (some (numSlides : Int)))
    (some (numSlides : Int))

/-- `goToSlide(index)`: `currentSlideIndex = index`, with no bounds check of
any kind. -/
def goToSlide (index : JsInt) (_currentSlideIndex : JsInt) : JsInt := index

/-- One manual navigation call on a cyclic collection. -/
inductive NavCall where
  | next
  | prev
deriving DecidableEq

/-- The slider index after a sequence of `showNextSlide` / `showPrevSlide`
calls. -/
def runSliderCalls (numSlides : Nat) (calls : List NavCall) (i : JsInt) : JsInt :=
  calls.foldl
    (fun j c =>
      match c with
      | NavCall.next => showNextSlide numSlides j
      | NavCall.prev => showPrevSlide numSlides j) i

/-- The lightbox index after a sequence of `showNextImage` / `showPrevImage`
calls. -/
def runLightboxCalls (galleryImages : List GalleryImage) (calls : List NavCall)
    (i : JsInt) : JsInt :=
  calls.foldl
    (fun j c =>
      match c with
      | NavCall.next => (showNextImage galleryImages j).1
      | NavCall.prev => (showPrevImage galleryImages j).1) i

example : showNextSlide 3 (some 2) = some 0 := by decide
example : showPrevSlide 3 (some 0) = some 2 := by decide
example : showNextSlide 0 (some 0) = none := by decide
example : runSliderCalls 4 [NavCall.next, NavCall.next, NavCall.prev] (some 3) = some 0 := by decide

/-! ## Cyclic-selector lemmas -/

/-- A valid index into a collection of length `N`. -/
def validIdx (N : Nat) (i : JsInt) : Prop :=
  ∃ m, i = some m ∧ 0 ≤ m ∧ m < (N : Int)

theorem showNextSlide_valid (N : Nat) (hN : 0 < N) (k : Int) (h0 : 0 ≤ k) :
    showNextSlide N (some k) = some ((k + 1) % (N : Int)) := by
  have hNz : (N : Int) ≠ 0 := by exact_mod_cast Nat.pos_iff_ne_zero.mp hN
  have ht : Int.tmod (k + 1) (N : Int) = (k + 1) % (N : Int) :=
    Int.tmod_eq_emod (by omega) (Int.natCast_nonneg N)
  simp [showNextSlide, jsAdd, jsRem, hNz, ht]

theorem showPrevSlide_valid (N : Nat) (hN : 0 < N) (k : Int) (h0 : 0 ≤ k) :
    showPrevSlide N (some k) = some ((k - 1 + (N : Int)) % (N : Int)) := by
  have hNz : (N : Int) ≠ 0 := by exact_mod_cast Nat.pos_iff_ne_zero.mp hN
  have hN1 : (1 : Int) ≤ (N : Int) := by exact_mod_cast hN
  have ht : Int.tmod (k - 1 + (N : Int)) (N : Int) = (k - 1 + (N : Int)) % (N : Int) :=
    Int.tmod_eq_emod (by omega) (Int.natCast_nonneg N)
  simp [showPrevSlide, jsAdd, jsSub, jsRem, hNz, ht]

theorem emod_range (N a : Int) (hN : 0 < N) : 0 ≤ a % N ∧ a % N < N :=
  ⟨Int.emod_nonneg a (ne_of_gt hN), Int.emod_lt_of_pos a hN⟩

theorem showNextSlide_preserves (N : Nat) (hN : 0 < N) (i : JsInt)
    (h : validIdx N i) : validIdx N (showNextSlide N i) := by
  obtain ⟨m, rfl, h0, hm⟩ := h
  rw [showNextSlide_valid N hN m h0]
  exact ⟨_, rfl, (emod_range N (m + 1) (by exact_mod_cast hN)).1,
    (emod_range N (m + 1) (by exact_mod_cast hN)).2⟩

theorem showPrevSlide_preserves (N : Nat) (hN : 0 < N) (i : JsInt)
    (h : validIdx N i) : validIdx N (showPrevSlide N i) := by
  obtain ⟨m, rfl, h0, hm⟩ := h
  rw [showPrevSlide_valid N hN m h0]
  exact ⟨_, rfl, (emod_range N (m - 1 + N) (by exact_mod_cast hN)).1,
    (emod_range N (m - 1 + N) (by exact_mod_cast hN)).2⟩

theorem runSliderCalls_preserves (N : Nat) (hN : 0 < N) (calls : List NavCall) :
    ∀ i : JsInt, validIdx N i → validIdx N (runSliderCalls N calls i) := by
  induction calls with
  | nil => intro i h; exact h
  | cons c cs ih =>
      intro i h
      cases c with
      | next => exact ih _ (showNextSlide_preserves N hN i h)
      | prev => exact ih _ (showPrevSlide_preserves N hN i h)

theorem emod_next_then_prev (N k : Int) (_hN : 0 < N) (h0 : 0 ≤ k) (hk : k < N) :
    ((k + 1) % N - 1 + N) % N = k := by
  have h1 : (k + 1) % N - 1 + N = (k + 1) % N + (N - 1) := by ring
  rw [h1, Int.emod_add_emod, show k + 1 + (N - 1) = k + N * 1 by ring,
    Int.add_mul_emod_self_left, Int.emod_eq_of_lt h0 hk]

theorem emod_prev_then_next (N k : Int) (_hN : 0 < N) (h0 : 0 ≤ k) (hk : k < N) :
    ((k - 1 + N) % N + 1) % N = k := by
  rw [Int.emod_add_emod, show k - 1 + N + 1 = k + N * 1 by ring,
    Int.add_mul_emod_self_left, Int.emod_eq_of_lt h0 hk]

theorem prev_of_next (N : Nat) (hN : 0 < N) (k : Int) (h0 : 0 ≤ k) (hk : k < (N : Int)) :
    showPrevSlide N (showNextSlide N (some k)) = some k := by
  have hNi : (0 : Int) < (N : Int) := by exact_mod_cast hN
  rw [showNextSlide_valid N hN k h0,
    showPrevSlide_valid N hN _ (emod_range N (k + 1) hNi).1,
    emod_next_then_prev (N : Int) k hNi h0 hk]

theorem next_of_prev (N : Nat) (hN : 0 < N) (k : Int) (h0 : 0 ≤ k) (hk : k < (N : Int)) :
    showNextSlide N (showPrevSlide N (some k)) = some k := by
  have hNi : (0 : Int) < (N : Int) := by exact_mod_cast hN
  rw [showPrevSlide_valid N hN k h0,
    showNextSlide_valid N hN _ (emod_range N (k - 1 + N) hNi).1,
    emod_prev_then_next (N : Int) k hNi h0 hk]

theorem showNextImage_fst (galleryImages : List GalleryImage) (i : JsInt) :
    (showNextImage galleryImages i).1 = showNextSlide galleryImages.length i := rfl

theorem showPrevImage_fst (galleryImages : List GalleryImage) (i : JsInt) :
    (showPrevImage galleryImages i).1 = showPrevSlide galleryImages.length i := rfl

theorem runLightboxCalls_eq (galleryImages : List GalleryImage) (calls : List NavCall) :
    ∀ i, runLightboxCalls galleryImages calls i = runSliderCalls galleryImages.length calls i := by
  induction calls with
  | nil => intro i; rfl
  | cons c cs ih =>
      intro i
      cases c with
      | next => exact ih _
      | prev => exact ih _

/-- C1: for every collection length N > 0 and every sequence of
next()/previous() calls on the lightbox or the slider, the current index
stays within [0, N); and next() then previous() (or previous() then next())
from any valid index returns the index to its original value. -/
theorem claim_cyclic_selector_range_and_inverse (N : Nat) (hN : 0 < N)
    (galleryImages : List GalleryImage) (hlen : galleryImages.length = N)
    (k : Int) (h0 : 0 ≤ k) (hk : k < (N : Int)) (calls : List NavCall) :
    (∃ m, runSliderCalls N calls (some k) = some m ∧ 0 ≤ m ∧ m < (N : Int)) ∧
    (∃ m, runLightboxCalls galleryImages calls (some k) = some m ∧ 0 ≤ m ∧ m < (N : Int)) ∧
    showPrevSlide N (showNextSlide N (some k)) = some k ∧
    showNextSlide N (showPrevSlide N (some k)) = some k ∧
    (showPrevImage galleryImages (showNextImage galleryImages (some k)).1).1 = some k ∧
    (showNextImage galleryImages (showPrevImage galleryImages (some k)).1).1 = some k := by
  have hv : validIdx N (some k) := ⟨k, rfl, h0, hk⟩
  refine ⟨runSliderCalls_preserves N hN calls _ hv, ?_, ?_, ?_, ?_, ?_⟩
  · rw [runLightboxCalls_eq, hlen]
    exact runSliderCalls_preserves N hN calls _ hv
  · exact prev_of_next N hN k h0 hk
  · exact next_of_prev N hN k h0 hk
  · rw [showNextImage_fst, showPrevImage_fst, hlen]
    exact prev_of_next N hN k h0 hk
  · rw [showPrevImage_fst, showNextImage_fst, hlen]
    exact next_of_prev N hN k h0 hk

/-- Witness for C1 at a concrete three-image gallery, index 1, and the call
sequence next, next, prev. -/
theorem claim_cyclic_selector_range_and_inverse_witness :
    0 < 3 ∧
    ([⟨"a.jpg", "a"⟩, ⟨"b.jpg", "b"⟩, ⟨"c.jpg", "c"⟩] : List GalleryImage).length = 3 ∧
    (0 : Int) ≤ 1 ∧ (1 : Int) < ((3 : Nat) : Int) ∧
    ((∃ m, runSliderCalls 3 [NavCall.next, NavCall.next, NavCall.prev] (some 1) = some m ∧
        0 ≤ m ∧ m < ((3 : Nat) : Int)) ∧
      (∃ m, runLightboxCalls [⟨"a.jpg", "a"⟩, ⟨"b.jpg", "b"⟩, ⟨"c.jpg", "c"⟩]
          [NavCall.next, NavCall.next, NavCall.prev] (some 1) = some m ∧
        0 ≤ m ∧ m < ((3 : Nat) : Int)) ∧
      showPrevSlide 3 (showNextSlide 3 (some 1)) = some 1 ∧
      showNextSlide 3 (showPrevSlide 3 (some 1)) = some 1 ∧
      (showPrevImage [⟨"a.jpg", "a"⟩, ⟨"b.jpg", "b"⟩, ⟨"c.jpg", "c"⟩]
        (showNextImage [⟨"a.jpg", "a"⟩, ⟨"b.jpg", "b"⟩, ⟨"c.jpg", "c"⟩] (some 1)).1).1 = some 1 ∧
      (showNextImage [⟨"a.jpg", "a"⟩, ⟨"b.jpg", "b"⟩, ⟨"c.jpg", "c"⟩]
        (showPrevImage [⟨"a.jpg", "a"⟩, ⟨"b.jpg", "b"⟩, ⟨"c.jpg", "c"⟩] (some 1)).1).1 = some 1) :=
  ⟨by decide, by decide, by decide, by decide,
    claim_cyclic_selector_range_and_inverse 3 (by decide)
      [⟨"a.jpg", "a"⟩, ⟨"b.jpg", "b"⟩, ⟨"c.jpg", "c"⟩] (by decide) 1 (by decide) (by decide)
      [NavCall.next, NavCall.next, NavCall.prev]⟩

/-- C2 counterexample: with an empty gallery, `showNextImage` is not a no-op
and throws — the index is set to `NaN` and `updateLightboxImage` raises a
TypeError reading a property of `undefined`. -/
theorem claim_empty_collection_counterexample :
    (showNextImage ([] : List GalleryImage) (some 0)).2 = Except.error JsError.typeError ∧
    (showNextImage ([] : List GalleryImage) (some 0)).1 = none ∧
    (showPrevImage ([] : List GalleryImage) (some 0)).2 = Except.error JsError.typeError :=
  ⟨rfl, rfl, rfl⟩

/-- C2 amended: for N == 0, the lightbox operations throw a TypeError and set
the index to NaN; the slider operations do not throw but set the index to
NaN rather than leaving it unchanged; `goToSlide(i)` sets the index to `i`. -/
theorem claim_empty_collection_amended :
    (∀ i : JsInt,
      (showNextImage ([] : List GalleryImage) i).2 = Except.error JsError.typeError ∧
      (showNextImage ([] : List GalleryImage) i).1 = none ∧
      (showPrevImage ([] : List GalleryImage) i).2 = Except.error JsError.typeError ∧
      (showPrevImage ([] : List GalleryImage) i).1 = none) ∧
    (∀ i : JsInt, showNextSlide 0 i = none ∧ showPrevSlide 0 i = none) ∧
    (∀ i cur : JsInt, goToSlide i cur = i) := by
  refine ⟨?_, ?_, fun i cur => rfl⟩
  · intro i
    cases i with
    | none => exact ⟨rfl, rfl, rfl, rfl⟩
    | some m => exact ⟨rfl, rfl, rfl, rfl⟩
  · intro i
    cases i with
    | none => exact ⟨rfl, rfl⟩
    | some m => exact ⟨rfl, rfl⟩

/-- C3 counterexample: `goToSlide(5)` on a three-slide collection sets the
index to 5, an index outside [0, 3) — the call is not rejected. -/
theorem claim_goto_counterexample :
    goToSlide (some 5) (some 0) = some 5 ∧ ¬ ((0 : Int) ≤ 5 ∧ (5 : Int) < (3 : Nat)) := by
  decide

/-- C3 amended: `goToSlide(i)` sets the index to `i` unconditionally: an
in-range `i` is stored, and an out-of-range `i` is neither rejected nor
wrapped — the index simply leaves [0, N), after which `updateSlider` marks
no slide active. -/
theorem claim_goto_amended :
    (∀ i cur : JsInt, goToSlide i cur = i) ∧
    (∀ (numSlides : Nat) (m : Int), (numSlides : Int) ≤ m →
      updateSlider numSlides (some m) = List.replicate numSlides false) := by
  refine ⟨fun i cur => rfl, ?_⟩
  intro numSlides m hm
  unfold updateSlider
  have hfalse : ∀ k ∈ List.range numSlides, (some m == some (k : Int)) = false := by
    intro k hk
    rw [List.mem_range] at hk
    have hki : (k : Int) < (numSlides : Int) := by exact_mod_cast hk
    have hne : m ≠ (k : Int) := by omega
    simp only [beq_eq_false_iff_ne, ne_eq, Option.some.injEq]
    exact hne
  rw [List.map_congr_left hfalse]
  simp [List.map_const', List.length_range]

/-- Witness for the C3 amended theorem: five slides, `goToSlide(7)`. -/
theorem claim_goto_amended_witness :
    ((5 : Nat) : Int) ≤ 7 ∧
    ((∀ i cur : JsInt, goToSlide i cur = i) ∧
      (∀ (numSlides : Nat) (m : Int), (numSlides : Int) ≤ m →
        updateSlider numSlides (some m) = List.replicate numSlides false)) :=
  ⟨by decide, claim_goto_amended⟩

/-! ## Form validation (`script.js` §8)

The submit handler (lines 399-464) and the blur-time `validateField`
(lines 504-530) validate the six required fields.  String-to-number
coercion (`guests.value < 1`, `field.value > 0`) follows the JavaScript
ToNumber conversion, modelled below on the decimal numerals this page's
inputs can produce. -/

/-- Digit-string value: `foldl (10*acc + digit)`. -/
def digitsVal (l : List Char) : Nat :=
  l.foldl (fun a c => 10 * a + (c.toNat - 48)) 0

/-- An unsigned decimal numeral: digits, optionally followed by `.` and more
digits, with at least one digit overall; anything else is `NaN` (`none`).
This is the StrUnsignedDecimalLiteral fragment of JavaScript ToNumber
without the `Infinity`, exponent and hex forms, which this page's number
inputs cannot produce. -/
def parseUnsignedDec (l : List Char) : Option ℚ :=
  let intPart := l.takeWhile Char.isDigit
  match l.dropWhile Char.isDigit with
  | [] => if intPart = [] then none else some ((digitsVal intPart : ℚ))
  | '.' :: fr =>
      if fr.all Char.isDigit ∧ (intPart ≠ [] ∨ fr ≠ []) then
        some (mkRat (digitsVal intPart * 10 ^ fr.length + digitsVal fr : Nat) (10 ^ fr.length))
      else none
  | _ => none

/-- JavaScript ToNumber on a string: surrounding whitespace is ignored, a
blank string converts to 0, an optional sign precedes an unsigned decimal
numeral, and everything else is `NaN` (`none`). -/
def jsToNumber (s : String) : Option ℚ :=
  match jsTrimL s.data with
  | [] => some 0
  | '-' :: rest => (parseUnsignedDec rest).map (fun q => -q)
  | '+' :: rest => parseUnsignedDec rest
  | l => parseUnsignedDec l

/-- JavaScript `v < q` for a string `v` and a number `q`: `v` is coerced
with ToNumber; a comparison against `NaN` is false. -/
def jsLtNum (v : String) (q : ℚ) : Bool :=
  match jsToNumber v with
  | some x => decide (x < q)
  | none => false

/-- JavaScript `v > q` for a string `v` and a number `q`. -/
def jsGtNum (v : String) (q : ℚ) : Bool :=
  match jsToNumber v with
  | some x => decide (q < x)
  | none => false

example : jsToNumber "5" = some 5 := by decide
example : jsToNumber "0.5" = some (mkRat 1 2) := by decide
example : jsToNumber "abc" = none := by decide
example : jsToNumber " 12 " = some 12 := by decide
example : jsToNumber "-3" = some (-3) := by decide
example : jsToNumber "" = some 0 := by decide
example : jsToNumber "." = none := by decide

/-- The guests test of the submit handler (line 438): the field fails when
`guests.value === '' || guests.value < 1`. -/
def submitGuestsFails (v : String) : Bool :=
  v == "" || jsLtNum v 1

/-- The blur-time `validateField` on the guests field (number branch, lines
519-524): empty after trimming fails; otherwise `field.value > 0` passes. -/
def blurGuestsPasses (v : String) : Bool :=
  if jsTrimL v.data = [] then false else jsGtNum v 0

/-- C4's rule as the claim words it: pass iff the string is non-empty and
its numeric value is strictly greater than 0. -/
def claimPositiveNumberCheck (v : String) : Bool :=
  !(v == "") && jsGtNum v 0

/-- C4 counterexample: the submit-time guests check is `guests.value === ''
|| guests.value < 1`, not "numeric value > 0": the string "0.5" has numeric
value strictly greater than 0 yet fails at submit, and the non-numeric
string "abc" (NaN, not greater than 0) passes at submit because `NaN < 1`
is false. -/
theorem claim_guests_check_counterexample :
    claimPositiveNumberCheck "0.5" = true ∧ submitGuestsFails "0.5" = true ∧
    claimPositiveNumberCheck "abc" = false ∧ submitGuestsFails "abc" = false := by
  decide

/-- C4 amended: the blur-time check passes iff the value is non-blank and
its numeric value is strictly greater than 0 (NaN fails); the submit-time
check instead fails iff the raw value is the empty string or its numeric
value is less than 1 (so NaN passes); "0" fails and "5" passes under both. -/
theorem claim_guests_check_amended :
    (∀ v : String, blurGuestsPasses v = true ↔
      (jsTrimL v.data ≠ [] ∧ ∃ q, jsToNumber v = some q ∧ 0 < q)) ∧
    (∀ v : String, submitGuestsFails v = false ↔
      (v ≠ "" ∧ ∀ q, jsToNumber v = some q → 1 ≤ q)) ∧
    blurGuestsPasses "0" = false ∧ blurGuestsPasses "5" = true ∧
    submitGuestsFails "0" = true ∧ submitGuestsFails "5" = false := by
  refine ⟨?_, ?_, by decide, by decide, by decide, by decide⟩
  · intro v
    unfold blurGuestsPasses
    by_cases h : jsTrimL v.data = []
    · simp [h]
    · rw [if_neg h]
      cases hq : jsToNumber v with
      | none => simp [jsGtNum, hq, h]
      | some q => simp [jsGtNum, hq, h]
  · intro v
    unfold submitGuestsFails
    cases hq : jsToNumber v with
    | none => simp [jsLtNum, hq]
    | some q => simp [jsLtNum, hq]

/-! ## The email regular expression

The email test is `/^[^\s@]+@[^\s@]+\.[^\s@]+$/.test(value.trim())`
(lines 416-417 and 513-514).  The pattern is a sequence of one-or-more
character-class repetitions and literal characters; `regMatch` is an
anchored backtracking matcher for exactly that shape of pattern. -/

/-- One token of the email pattern: a `[...]+` repetition or a literal. -/
inductive RegToken where
  | plusCls (p : Char → Bool)
  | lit (c : Char)

/-- Anchored match of a token sequence against the whole character list,
with backtracking on how far each `[...]+` extends. -/
def regMatch : List RegToken → List Char → Bool
  | [], [] => true
  | [], _ :: _ => false
  | RegToken.lit _ :: _, [] => false
  | RegToken.lit c :: ts, x :: xs => x == c && regMatch ts xs
  | RegToken.plusCls _ :: _, [] => false
  | RegToken.plusCls p :: ts, x :: xs =>
      p x && (regMatch ts xs || regMatch (RegToken.plusCls p :: ts) xs)

/-- The class `[^\s@]`: neither whitespace nor `@`. -/
def emailCharOk (c : Char) : Bool := !(isJsWs c) && !(c == '@')

/-- The tokens of the pattern between the `^` and `$` anchors. -/
def emailRegexTokens : List RegToken :=
  [RegToken.plusCls emailCharOk, RegToken.lit '@', RegToken.plusCls emailCharOk,
    RegToken.lit '.', RegToken.plusCls emailCharOk]

/-- The submit-handler email test: `emailRegex.test(email.value.trim())`. -/
def submitEmailCheck (v : String) : Bool :=
  regMatch emailRegexTokens (jsTrimL v.data)

/-- The blur-time `validateField` email branch: an empty trimmed value fails
as a missing required field, otherwise the same regular expression runs. -/
def blurEmailCheck (v : String) : Bool :=
  if jsTrimL v.data = [] then false else regMatch emailRegexTokens (jsTrimL v.data)

/-- C5's rule as the claim words it: trimmed value non-empty, exactly one
`@`, at least one non-whitespace character before it, and at least one
`.`-separated label after it. -/
def claimEmailCheck (v : String) : Bool :=
  let t := jsTrimL v.data
  !(t == []) && (t.count '@' == 1) &&
    ((t.takeWhile (fun c => !(c == '@'))).any (fun c => !(isJsWs c))) &&
    ((((t.dropWhile (fun c => !(c == '@'))).drop 1).dropLast).contains '.')

example : submitEmailCheck "a@b.co" = true := by decide
example : submitEmailCheck "abc" = false := by decide
example : submitEmailCheck " a@b.co " = true := by decide
example : submitEmailCheck "a@b" = false := by decide
example : claimEmailCheck "a@b.co" = true := by decide
example : claimEmailCheck "abc" = false := by decide

theorem regMatch_nil_iff (l : List Char) : regMatch [] l = true ↔ l = [] := by
  cases l <;> simp [regMatch]

theorem regMatch_lit_iff (c : Char) (ts : List RegToken) (l : List Char) :
    regMatch (RegToken.lit c :: ts) l = true ↔
      ∃ r, l = c :: r ∧ regMatch ts r = true := by
  cases l with
  | nil => simp [regMatch]
  | cons x xs =>
      simp only [regMatch, Bool.and_eq_true, beq_iff_eq]
      constructor
      · rintro ⟨rfl, h⟩
        exact ⟨xs, rfl, h⟩
      · rintro ⟨r, heq, h⟩
        cases heq
        exact ⟨rfl, h⟩

theorem regMatch_plus_iff (p : Char → Bool) (ts : List RegToken) (l : List Char) :
    regMatch (RegToken.plusCls p :: ts) l = true ↔
      ∃ X r, l = X ++ r ∧ X ≠ [] ∧ (∀ c ∈ X, p c = true) ∧ regMatch ts r = true := by
  induction l with
  | nil =>
      simp only [regMatch, Bool.false_eq_true, false_iff]
      rintro ⟨X, r, heq, hX, -, -⟩
      exact hX (List.append_eq_nil.mp heq.symm).1
  | cons x xs ih =>
      simp only [regMatch, Bool.and_eq_true, Bool.or_eq_true, ih]
      constructor
      · rintro ⟨hpx, h | ⟨X, r, rfl, hX, hall, hts⟩⟩
        · exact ⟨[x], xs, rfl, by simp, by simpa using hpx, h⟩
        · refine ⟨x :: X, r, rfl, by simp, ?_, hts⟩
          intro c hc
          rcases List.mem_cons.mp hc with rfl | hc
          · exact hpx
          · exact hall c hc
      · rintro ⟨X, r, heq, hX, hall, hts⟩
        cases X with
        | nil => exact absurd rfl hX
        | cons y Y =>
            rw [List.cons_append] at heq
            injection heq with hy hxs
            subst hy
            refine ⟨hall x (by simp), ?_⟩
            cases Y with
            | nil =>
                left
                have hxr : xs = r := by simpa using hxs
                rw [hxr]
                exact hts
            | cons z Z =>
                right
                refine ⟨z :: Z, r, hxs, by simp, ?_, hts⟩
                intro c hc
                exact hall c (List.mem_cons_of_mem _ hc)

theorem emailRegex_characterization (l : List Char) :
    regMatch emailRegexTokens l = true ↔
      ∃ A X Y, l = A ++ '@' :: (X ++ '.' :: Y) ∧ A ≠ [] ∧ X ≠ [] ∧ Y ≠ [] ∧
        (∀ c ∈ A, emailCharOk c = true) ∧ (∀ c ∈ X, emailCharOk c = true) ∧
        (∀ c ∈ Y, emailCharOk c = true) := by
  unfold emailRegexTokens
  simp only [regMatch_plus_iff, regMatch_lit_iff, regMatch_nil_iff]
  constructor
  · rintro ⟨A, r1, rfl, hA, hallA, r2, rfl, X, r3, rfl, hX, hallX, r4, rfl, Y, r5, rfl,
      hY, hallY, rfl⟩
    exact ⟨A, X, Y, by simp, hA, hX, hY, hallA, hallX, hallY⟩
  · rintro ⟨A, X, Y, rfl, hA, hX, hY, hallA, hallX, hallY⟩
    exact ⟨A, _, rfl, hA, hallA, _, rfl, X, _, rfl, hX, hallX, _, rfl, Y, [],
      by simp, hY, hallY, rfl⟩

/-- C5 counterexample: "a a@b.co" has exactly one `@`, a non-whitespace
character before it and a `.`-separated label after it, so the claim's rule
accepts it; the code's regular expression rejects it because of the internal
space before the `@`. -/
theorem claim_email_check_counterexample :
    claimEmailCheck "a a@b.co" = true ∧ submitEmailCheck "a a@b.co" = false ∧
    blurEmailCheck "a a@b.co" = false := by
  decide

/-- C5 amended: the email check passes iff the trimmed value has the shape
`A@B` with `B = X.Y`, where `A`, `X`, `Y` are non-empty and every character
in them is neither whitespace nor `@` — so a second `@` or whitespace
anywhere in the trimmed value fails, not only at its ends; the blur-time and
submit-time checks agree; "a@b.co" passes and "abc" fails. -/
theorem claim_email_check_amended :
    (∀ v : String, submitEmailCheck v = true ↔
      ∃ A X Y, jsTrimL v.data = A ++ '@' :: (X ++ '.' :: Y) ∧ A ≠ [] ∧ X ≠ [] ∧ Y ≠ [] ∧
        (∀ c ∈ A, emailCharOk c = true) ∧ (∀ c ∈ X, emailCharOk c = true) ∧
        (∀ c ∈ Y, emailCharOk c = true)) ∧
    (∀ v : String, blurEmailCheck v = submitEmailCheck v) ∧
    submitEmailCheck "a@b.co" = true ∧ submitEmailCheck "abc" = false := by
  refine ⟨fun v => emailRegex_characterization _, ?_, by decide, by decide⟩
  intro v
  unfold blurEmailCheck submitEmailCheck
  by_cases h : jsTrimL v.data = []
  · rw [if_pos h, h]
    rfl
  · rw [if_neg h]

/-! ## Whole-form validation (submit handler, lines 399-454) -/

/-- The six required fields of the contact form, in the order the submit
handler checks them. -/
inductive FieldId where
  | name
  | email
  | phone
  | eventDate
  | guests
  | message
deriving DecidableEq, Fintype

/-- The values the six fields hold when the form is submitted. -/
structure FormValues where
  name : String
  email : String
  phone : String
  eventDate : String
  guests : String
  message : String

/-- A field's raw value. -/
def fieldValue (fs : FormValues) : FieldId → String
  | FieldId.name => fs.name
  | FieldId.email => fs.email
  | FieldId.phone => fs.phone
  | FieldId.eventDate => fs.eventDate
  | FieldId.guests => fs.guests
  | FieldId.message => fs.message

/-- The submit handler's per-field failure condition: name/phone/message
fail when empty after trimming, email fails when the regular expression
rejects the trimmed value, the event date fails when the raw value is the
empty string, and guests fails when empty or numerically less than 1. -/
def submitFieldFails (fs : FormValues) : FieldId → Bool
  | FieldId.name => jsTrimL fs.name.data == []
  | FieldId.email => !(submitEmailCheck fs.email)
  | FieldId.phone => jsTrimL fs.phone.data == []
  | FieldId.eventDate => fs.eventDate == ""
  | FieldId.guests => submitGuestsFails fs.guests
  | FieldId.message => jsTrimL fs.message.data == []

/-- The order in which the handler visits the fields. -/
def fieldOrder : List FieldId :=
  [FieldId.name, FieldId.email, FieldId.phone, FieldId.eventDate, FieldId.guests,
    FieldId.message]

/-- The fields whose form groups receive the `error` class. -/
def failingFields (fs : FormValues) : List FieldId :=
  fieldOrder.filter (submitFieldFails fs)

/-- `isValid` at the end of the handler: no check failed. -/
def submitFormIsValid (fs : FormValues) : Bool :=
  fieldOrder.all (fun f => !(submitFieldFails fs f))

/-- An empty raw value fails every field's submit-time check. -/
theorem submitFieldFails_of_empty (fs : FormValues) (f : FieldId)
    (h : fieldValue fs f = "") : submitFieldFails fs f = true := by
  cases f <;>
    simp only [submitFieldFails, fieldValue] at h ⊢ <;>
    rw [h] <;> decide

theorem mem_fieldOrder (f : FieldId) : f ∈ fieldOrder := by
  cases f <;> decide

/-- C6: if exactly two of the six required fields are empty and the other
four satisfy their rules, the submit handler reports the form invalid and
marks exactly those two fields. -/
theorem claim_two_empty_fields (fs : FormValues) (f1 f2 : FieldId) (hne : f1 ≠ f2)
    (h1 : fieldValue fs f1 = "") (h2 : fieldValue fs f2 = "")
    (hrest : ∀ f, f ≠ f1 → f ≠ f2 → submitFieldFails fs f = false) :
    submitFormIsValid fs = false ∧
    ∀ f, f ∈ failingFields fs ↔ (f = f1 ∨ f = f2) := by
  have hfail : ∀ f, submitFieldFails fs f = true ↔ (f = f1 ∨ f = f2) := by
    intro f
    constructor
    · intro hf
      by_contra hor
      push_neg at hor
      rw [hrest f hor.1 hor.2] at hf
      exact Bool.false_ne_true hf
    · rintro (rfl | rfl)
      · exact submitFieldFails_of_empty fs f h1
      · exact submitFieldFails_of_empty fs f h2
  constructor
  · rw [submitFormIsValid]
    rw [List.all_eq_false]
    refine ⟨f1, mem_fieldOrder f1, ?_⟩
    simp [(hfail f1).mpr (Or.inl rfl)]
  · intro f
    rw [failingFields, List.mem_filter]
    simp [mem_fieldOrder f, hfail f]

/-- Witness for C6: name and email empty, the other four fields valid. -/
theorem claim_two_empty_fields_witness :
    (FieldId.name ≠ FieldId.email) ∧
    fieldValue ⟨"", "", "339 1234567", "2026-05-01", "5", "hello"⟩ FieldId.name = "" ∧
    fieldValue ⟨"", "", "339 1234567", "2026-05-01", "5", "hello"⟩ FieldId.email = "" ∧
    (∀ f, f ≠ FieldId.name → f ≠ FieldId.email →
      submitFieldFails ⟨"", "", "339 1234567", "2026-05-01", "5", "hello"⟩ f = false) ∧
    (submitFormIsValid ⟨"", "", "339 1234567", "2026-05-01", "5", "hello"⟩ = false ∧
      ∀ f, f ∈ failingFields ⟨"", "", "339 1234567", "2026-05-01", "5", "hello"⟩ ↔
        (f = FieldId.name ∨ f = FieldId.email)) :=
  ⟨by decide, rfl, rfl, by decide,
    claim_two_empty_fields ⟨"", "", "339 1234567", "2026-05-01", "5", "hello"⟩
      FieldId.name FieldId.email (by decide) rfl rfl (by decide)⟩

/-! ## Reviews banner visibility (`checkBannerVisibility`, lines 595-617)

The handler reads `window.scrollY`, `window.innerHeight` and the two section
boundaries, then toggles the `visible` class.  The locals `scrollBottom`,
`doveSiamoBottom` and `contactBottom` are computed but never used by the
decision, so they are not modelled. -/

/-- `pastDoveSiamo = scrollY >= doveSiamoTop - windowHeight / 2`. -/
def pastDoveSiamoCheck (scrollY windowHeight doveSiamoTop : ℚ) : Bool :=
  decide (scrollY ≥ doveSiamoTop - windowHeight / 2)

/-- `checkBannerVisibility`: the banner carries the `visible` class iff the
page has scrolled past the start of the "Dove Siamo" section (by half a
viewport) and not past the middle of the contact section. -/
def checkBannerVisibility (scrollY windowHeight doveSiamoTop contactTop contactHeight : ℚ) :
    Bool :=
  let contactMiddle := contactTop + contactHeight / 2
  pastDoveSiamoCheck scrollY windowHeight doveSiamoTop && decide (scrollY < contactMiddle)

/-- C7: the banner is reported visible iff
`scrollY >= doveSiamoTop - windowHeight/2` and
`scrollY < contactTop + contactHeight/2`; with `doveSiamoTop = 1000` and
`windowHeight = 800`, scroll 650 is past the start and scroll 500 is not. -/
theorem claim_banner_visibility_gate :
    (∀ scrollY windowHeight doveSiamoTop contactTop contactHeight : ℚ,
      checkBannerVisibility scrollY windowHeight doveSiamoTop contactTop contactHeight = true ↔
        (scrollY ≥ doveSiamoTop - windowHeight / 2 ∧
          scrollY < contactTop + contactHeight / 2)) ∧
    pastDoveSiamoCheck 650 800 1000 = true ∧ pastDoveSiamoCheck 500 800 1000 = false := by
  refine ⟨?_, ?_, ?_⟩
  · intro sy wh dt ct ch
    simp [checkBannerVisibility, pastDoveSiamoCheck]
  · simp only [pastDoveSiamoCheck, decide_eq_true_eq]
    norm_num
  · simp only [pastDoveSiamoCheck, decide_eq_false_iff_not]
    norm_num

/-! ## Slider auto-advance timer (lines 334-338, 341-366)

`setInterval(showNextSlide, 8000)` fires its callback every 8000 ms after
the call that installed it; a running interval is identified by the time at
which it was installed.  `resetSliderInterval` clears the pending interval
and installs a fresh one at the current time. -/

/-- A running interval timer, identified by the time `base` at which
`setInterval` was called; its callback fires at `base + T`, `base + 2T`, .... -/
structure SliderInterval where
  base : ℚ

/-- The time of the k-th automatic `showNextSlide` tick (0-indexed) of a
running interval with period `T`. -/
def autoAdvanceTime (T : ℚ) (s : SliderInterval) (k : Nat) : ℚ :=
  s.base + ((k : ℚ) + 1) * T

/-- `resetSliderInterval` executed at time `now`: `clearInterval` cancels
the pending schedule and `setInterval(showNextSlide, 8000)` starts a fresh
one based at `now`. -/
def resetSliderInterval (now : ℚ) (_old : SliderInterval) : SliderInterval :=
  ⟨now⟩

/-- C8: with no manual interaction consecutive automatic advances are
exactly `T` apart and the window `(base + kT, base + (k+1)T]` contains
exactly the k-th tick — one advance per `T` elapsed; and a reset at time
`t` schedules the next automatic advance at `t + T` regardless of the prior
schedule. -/
theorem claim_auto_advance_timer (T : ℚ) (hT : 0 < T) (s : SliderInterval)
    (t : ℚ) (k : Nat) :
    autoAdvanceTime T s 0 = s.base + T ∧
    autoAdvanceTime T s (k + 1) - autoAdvanceTime T s k = T ∧
    (∀ j, (s.base + (k : ℚ) * T < autoAdvanceTime T s j ∧
        autoAdvanceTime T s j ≤ s.base + ((k : ℚ) + 1) * T) ↔ j = k) ∧
    (∀ old : SliderInterval, autoAdvanceTime T (resetSliderInterval t old) 0 = t + T) := by
  refine ⟨by simp [autoAdvanceTime], ?_, ?_, ?_⟩
  · unfold autoAdvanceTime
    push_cast
    ring
  · intro j
    unfold autoAdvanceTime
    constructor
    · rintro ⟨hlo, hhi⟩
      rw [add_lt_add_iff_left, mul_lt_mul_right hT] at hlo
      rw [add_le_add_iff_left, mul_le_mul_right hT] at hhi
      have hj1 : (k : ℚ) < (j : ℚ) + 1 := hlo
      have hj2 : (j : ℚ) ≤ (k : ℚ) := by linarith
      have h1 : k < j + 1 := by exact_mod_cast hj1
      have h2 : j ≤ k := by exact_mod_cast hj2
      omega
    · rintro rfl
      constructor
      · rw [add_lt_add_iff_left, mul_lt_mul_right hT]
        linarith
      · rw [add_le_add_iff_left]
  · intro old
    simp [autoAdvanceTime, resetSliderInterval]

/-- Witness for C8: the 8000 ms slider interval started at time 0, reset at
time 20000, window index 2. -/
theorem claim_auto_advance_timer_witness :
    (0 : ℚ) < 8000 ∧
    (autoAdvanceTime 8000 ⟨0⟩ 0 = (⟨0⟩ : SliderInterval).base + 8000 ∧
      autoAdvanceTime 8000 ⟨0⟩ (2 + 1) - autoAdvanceTime 8000 ⟨0⟩ 2 = 8000 ∧
      (∀ j, ((⟨0⟩ : SliderInterval).base + ((2 : Nat) : ℚ) * 8000 < autoAdvanceTime 8000 ⟨0⟩ j ∧
          autoAdvanceTime 8000 ⟨0⟩ j ≤ (⟨0⟩ : SliderInterval).base + (((2 : Nat) : ℚ) + 1) * 8000) ↔
          j = 2) ∧
      (∀ old : SliderInterval,
        autoAdvanceTime 8000 (resetSliderInterval 20000 old) 0 = 20000 + 8000)) :=
  ⟨by norm_num, claim_auto_advance_timer 8000 (by norm_num) ⟨0⟩ 20000 2⟩

/-! ## Reviews banner close button (lines 626-633)

The close handler removes the `visible` class and sets the inline style
`display: none`; every later scroll event only toggles the `visible` class
through `checkBannerVisibility`.  An element with `display: none` is not
rendered whatever its classes. -/

/-- The banner's state: whether `classList` contains `visible`, and whether
the inline style is `display: none`. -/
structure BannerState where
  visibleClass : Bool
  displayNone : Bool

/-- The events that touch the banner after initialization: a scroll (with
the measurements the handler reads) or a click on the close button. -/
inductive BannerEvent where
  | scrollTo (scrollY windowHeight doveSiamoTop contactTop contactHeight : ℚ)
  | closeClick

/-- One event: scroll runs `checkBannerVisibility` and toggles the class;
close removes the class and sets `display: none`. -/
def bannerStep (s : BannerState) : BannerEvent → BannerState
  | BannerEvent.scrollTo sy wh dt ct ch =>
      { s with visibleClass := checkBannerVisibility sy wh dt ct ch }
  | BannerEvent.closeClick => { visibleClass := false, displayNone := true }

/-- The banner state after a sequence of events. -/
def bannerRun (s : BannerState) (evs : List BannerEvent) : BannerState :=
  evs.foldl bannerStep s

/-- Whether the banner is rendered: it needs the `visible` class and must
not have `display: none`. -/
def bannerShown (s : BannerState) : Bool := s.visibleClass && !s.displayNone

theorem bannerRun_displayNone (evs : List BannerEvent) :
    ∀ s : BannerState, s.displayNone = true → (bannerRun s evs).displayNone = true := by
  induction evs with
  | nil => intro s h; exact h
  | cons e es ih =>
      intro s h
      cases e with
      | scrollTo sy wh dt ct ch => exact ih _ h
      | closeClick => exact ih _ rfl

/-- C9: once the close button has been clicked, `display: none` persists
through every later event and no scroll position renders the banner again —
scroll events only toggle the `visible` class, which cannot undo
`display: none`. -/
theorem claim_banner_close_permanent (s : BannerState) (evs : List BannerEvent) :
    (bannerRun (bannerStep s BannerEvent.closeClick) evs).displayNone = true ∧
    bannerShown (bannerRun (bannerStep s BannerEvent.closeClick) evs) = false := by
  have hd : (bannerRun (bannerStep s BannerEvent.closeClick) evs).displayNone = true :=
    bannerRun_displayNone evs _ rfl
  refine ⟨hd, ?_⟩
  unfold bannerShown
  rw [hd]
  simp

/-! ## Setup section layout switcher (lines 186-203)

A click on tab `i` reads the tab's `data-layout` attribute, removes the
`active` class from every tab, adds it to the clicked tab, and gives each
layout display the `active` class iff its `data-layout` equals the clicked
tab's. -/

/-- A `.layout-tab` element: its `data-layout` attribute and whether it
carries the `active` class. -/
structure LayoutTab where
  layout : String
  active : Bool

/-- A `.layout-display` element. -/
structure LayoutDisplay where
  layout : String
  active : Bool

/-- `layoutTabs.forEach(t => t.classList.remove('active'))` followed by
`tab.classList.add('active')`: position `j + k` gets the class iff it is
the clicked position `i` (`j` is the position of the sublist's head). -/
def markActiveFrom (i : Nat) : Nat → List LayoutTab → List LayoutTab
  | _, [] => []
  | j, t :: ts => { t with active := decide (j = i) } :: markActiveFrom i (j + 1) ts

/-- The click handler of tab `i`: reads the clicked tab's `data-layout`,
re-marks the tabs, and re-marks the displays by comparing each display's
`data-layout` with the clicked one. -/
def clickLayoutTab (st : List LayoutTab × List LayoutDisplay) (i : Nat) :
    List LayoutTab × List LayoutDisplay :=
  let layoutType := ((st.1.get? i).map LayoutTab.layout).getD ""
  (markActiveFrom i 0 st.1,
    st.2.map (fun d => { d with active := d.layout == layoutType }))

/-- The state after a sequence of tab clicks. -/
def applyLayoutClicks (st : List LayoutTab × List LayoutDisplay) (clicks : List Nat) :
    List LayoutTab × List LayoutDisplay :=
  clicks.foldl clickLayoutTab st

theorem markActiveFrom_get? (i : Nat) :
    ∀ (j k : Nat) (ts : List LayoutTab),
      (markActiveFrom i j ts).get? k
        = (ts.get? k).map (fun t => { t with active := decide (j + k = i) }) := by
  intro j k ts
  induction ts generalizing j k with
  | nil => simp [markActiveFrom]
  | cons t ts ih =>
      cases k with
      | zero => simp [markActiveFrom]
      | succ k =>
          simp only [markActiveFrom, List.get?_cons_succ, ih (j + 1) k, Nat.add_succ,
            Nat.succ_add]

theorem markActiveFrom_map_layout (i : Nat) :
    ∀ (j : Nat) (ts : List LayoutTab),
      (markActiveFrom i j ts).map LayoutTab.layout = ts.map LayoutTab.layout := by
  intro j ts
  induction ts generalizing j with
  | nil => rfl
  | cons t ts ih => simp [markActiveFrom, ih (j + 1)]

theorem clickLayoutTab_map_layout (st : List LayoutTab × List LayoutDisplay) (i : Nat) :
    (clickLayoutTab st i).1.map LayoutTab.layout = st.1.map LayoutTab.layout ∧
    (clickLayoutTab st i).2.map LayoutDisplay.layout = st.2.map LayoutDisplay.layout := by
  constructor
  · exact markActiveFrom_map_layout i 0 st.1
  · simp [clickLayoutTab, List.map_map, Function.comp]

theorem applyLayoutClicks_map_layout (clicks : List Nat) :
    ∀ st : List LayoutTab × List LayoutDisplay,
      (applyLayoutClicks st clicks).1.map LayoutTab.layout = st.1.map LayoutTab.layout ∧
      (applyLayoutClicks st clicks).2.map LayoutDisplay.layout = st.2.map LayoutDisplay.layout := by
  induction clicks with
  | nil => intro st; exact ⟨rfl, rfl⟩
  | cons c cs ih =>
      intro st
      refine ⟨?_, ?_⟩
      · rw [show applyLayoutClicks st (c :: cs) = applyLayoutClicks (clickLayoutTab st c) cs
            from rfl, (ih _).1, (clickLayoutTab_map_layout st c).1]
      · rw [show applyLayoutClicks st (c :: cs) = applyLayoutClicks (clickLayoutTab st c) cs
            from rfl, (ih _).2, (clickLayoutTab_map_layout st c).2]

/-- C10: after any click sequence ending with a click on tab `i`, the tab
state is mutually exclusive — position `i` is the only tab carrying the
`active` class — and a layout display carries `active` iff its
`data-layout` equals the clicked tab's `data-layout`, from any starting
class assignment. -/
theorem claim_layout_tabs_exclusive (tabs : List LayoutTab) (displays : List LayoutDisplay)
    (earlier : List Nat) (i : Nat) (hi : i < tabs.length) :
    ((applyLayoutClicks (tabs, displays) (earlier ++ [i])).1.length = tabs.length) ∧
    (∀ k t, (applyLayoutClicks (tabs, displays) (earlier ++ [i])).1.get? k = some t →
      (t.active = true ↔ k = i)) ∧
    (∀ d ∈ (applyLayoutClicks (tabs, displays) (earlier ++ [i])).2,
      d.active = (d.layout == (tabs.get ⟨i, hi⟩).layout)) := by
  have hfold : applyLayoutClicks (tabs, displays) (earlier ++ [i])
      = clickLayoutTab (applyLayoutClicks (tabs, displays) earlier) i := by
    unfold applyLayoutClicks
    rw [List.foldl_append]
    rfl
  have hlay := applyLayoutClicks_map_layout earlier (tabs, displays)
  have hlen : (applyLayoutClicks (tabs, displays) earlier).1.length = tabs.length := by
    have hl := congrArg List.length hlay.1
    simpa using hl
  have hgets : ((applyLayoutClicks (tabs, displays) earlier).1.get? i).map LayoutTab.layout
      = (tabs.get? i).map LayoutTab.layout := by
    have hm : ((applyLayoutClicks (tabs, displays) earlier).1.map LayoutTab.layout).get? i
        = (tabs.map LayoutTab.layout).get? i := by rw [hlay.1]
    rwa [List.get?_map, List.get?_map] at hm
  have htype : (((applyLayoutClicks (tabs, displays) earlier).1.get? i).map
      LayoutTab.layout).getD "" = (tabs.get ⟨i, hi⟩).layout := by
    rw [hgets, List.get?_eq_get hi]
    rfl
  refine ⟨?_, ?_, ?_⟩
  · rw [hfold]
    have hl := congrArg List.length
      (markActiveFrom_map_layout i 0 (applyLayoutClicks (tabs, displays) earlier).1)
    simp only [List.length_map] at hl
    simpa [clickLayoutTab] using hl.trans hlen
  · intro k t ht
    rw [hfold] at ht
    simp only [clickLayoutTab] at ht
    rw [markActiveFrom_get? i 0 k] at ht
    cases hk : (applyLayoutClicks (tabs, displays) earlier).1.get? k with
    | none => rw [hk] at ht; cases ht
    | some t0 =>
        rw [hk] at ht
        simp only [Option.map_some', Option.some.injEq] at ht
        subst ht
        simp [Nat.zero_add]
  · intro d hd
    rw [hfold] at hd
    simp only [clickLayoutTab, List.mem_map] at hd
    obtain ⟨d0, hd0, rfl⟩ := hd
    simpa using congrArg (fun s => d0.layout == s) htype

/-- Witness for C10: two tabs and two displays, an earlier click on tab 1,
then a click on tab 0. -/
theorem claim_layout_tabs_exclusive_witness :
    0 < ([⟨"theater", false⟩, ⟨"banquet", true⟩] : List LayoutTab).length ∧
    (((applyLayoutClicks ([⟨"theater", false⟩, ⟨"banquet", true⟩],
        ([⟨"theater", false⟩, ⟨"banquet", true⟩] : List LayoutDisplay)) ([1] ++ [0])).1.length
        = ([⟨"theater", false⟩, ⟨"banquet", true⟩] : List LayoutTab).length) ∧
      (∀ k t, (applyLayoutClicks ([⟨"theater", false⟩, ⟨"banquet", true⟩],
          ([⟨"theater", false⟩, ⟨"banquet", true⟩] : List LayoutDisplay)) ([1] ++ [0])).1.get? k
          = some t → (t.active = true ↔ k = 0)) ∧
      (∀ d ∈ (applyLayoutClicks ([⟨"theater", false⟩, ⟨"banquet", true⟩],
          ([⟨"theater", false⟩, ⟨"banquet", true⟩] : List LayoutDisplay)) ([1] ++ [0])).2,
        d.active = (d.layout ==
          (([⟨"theater", false⟩, ⟨"banquet", true⟩] : List LayoutTab).get
            ⟨0, by decide⟩).layout))) :=
  ⟨by decide,
    claim_layout_tabs_exclusive [⟨"theater", false⟩, ⟨"banquet", true⟩]
      [⟨"theater", false⟩, ⟨"banquet", true⟩] [1] 0 (by decide)⟩
